import Mathlib

/-!
# Fluento backend — verification of the Scoring & Progression Engine

Shallow embedding of the scoring, progression, badge and daily-word logic of
the Fluento backend (`app/services/scoring_service.py`, `app/database.py`,
`app/services/word_service.py`), together with theorems settling the spec
claims about it.

Modelling conventions:
* Python `int` is `Int` (scores, XP, counters); Python `//` is `Int.fdiv`.
* Python floats in the similarity computation are modelled exactly as
  rationals (`ℚ`); Python `int(x)` (truncation toward zero) is `ratTrunc`.
* Calendar dates are integers counting days (`date.toordinal`), so that
  `(today - last_date).days` becomes plain integer subtraction.
* External collaborators (the phonemizer, Python's `random.Random`) are
  parameters of the functions that consume them.
-/

namespace Fluento

/-! ## Edit distance

`Levenshtein.distance(a, b)` from the python-Levenshtein package, i.e. the
unit-cost edit distance, realised by Mathlib's `levenshtein` with
`Levenshtein.defaultCost` over the characters of the strings. -/

/-- Unit-cost Levenshtein distance between two strings. -/
def levDist (a b : String) : ℕ :=
  levenshtein Levenshtein.defaultCost a.data b.data

/-- Truncation toward zero of a rational number: Python's `int(x)`. -/
def ratTrunc (q : ℚ) : ℤ :=
  if 0 ≤ q then ⌊q⌋ else ⌈q⌉

/-- Python's `str.lower()` (on the ASCII fragment): lowercase each character. -/
def pyLower (s : String) : String :=
  String.mk (s.data.map Char.toLower)

/-- Python's `str.strip()`: drop leading and trailing whitespace. -/
def pyStrip (s : String) : String :=
  String.mk (((s.data.dropWhile Char.isWhitespace).reverse.dropWhile
    Char.isWhitespace).reverse)

/-- `text.lower().strip()`, the normalization both scorers apply. -/
def normalize (s : String) : String :=
  pyStrip (pyLower s)

/-! ## ScoringService (`app/services/scoring_service.py`) -/

/-- The shared similarity computation of `calculate_pronunciation_score`
(lines 87–92) and `calculate_spelling_score` (lines 131–136):

    dist = levenshtein_distance(target, attempt)
    max_len = max(len(target), len(attempt), 1)
    similarity = 1 - (dist / max_len)
    score = max(0, min(100, int(similarity * 100)))
-/
def similarityScore (target attempt : String) : ℤ :=
  let dist : ℚ := levDist target attempt
  let max_len : ℚ := max (target.length : ℚ) (max (attempt.length : ℚ) 1)
  let similarity : ℚ := 1 - dist / max_len
  max 0 (min 100 (ratTrunc (similarity * 100)))

/-- `ScoringService._get_spelling_feedback` (scoring_service.py lines 179–193). -/
def get_spelling_feedback (score : ℤ) (user_text target : String) : String :=
  if score ≥ 90 then "Almost perfect! Just a small typo."
  else if score ≥ 75 then "Good try! A few letters are off."
  else if score ≥ 50 then "Keep going! You got some letters right."
  else "The correct spelling is \x27" ++ target ++ "\x27. Try again!"

/-- `ScoringService._get_pronunciation_feedback` (scoring_service.py lines
146–177).  `target_clean in recognized_clean` is Python substring search,
modelled as a contiguous-sublist test on the character lists. -/
def get_pronunciation_feedback (score : ℤ) (recognized target : String) : String :=
  let recognized_clean := normalize recognized
  let target_clean := normalize target
  if recognized_clean = target_clean then
    "Perfect pronunciation! Great job!"
  else if target_clean.data <:+: recognized_clean.data then
    "Good! You said the word correctly. Score based on clarity."
  else if score ≥ 90 then "Excellent pronunciation! Almost perfect!"
  else if score ≥ 75 then "Great pronunciation! Minor differences detected."
  else if score ≥ 60 then "Good attempt! Some sounds need work."
  else if score ≥ 40 then "Keep practicing! Focus on individual sounds."
  else if score ≥ 20 then
    "The word \x27" ++ target ++ "\x27 sounds quite different. Try again slowly."
  else if recognized = "" then
    "Could not detect speech. Please try again."
  else
    "We heard \x27" ++ recognized ++ "\x27. The target word is \x27" ++ target
      ++ "\x27. Try again!"

/-- Result record of `calculate_spelling_score`. -/
structure SpellingResult where
  score : ℤ
  feedback : String
deriving DecidableEq

/-- `ScoringService.calculate_spelling_score` (scoring_service.py lines
104–144). -/
def calculate_spelling_score (user_text0 target_word0 : String) : SpellingResult :=
  let user_text := normalize user_text0
  let target_word := normalize target_word0
  if user_text = target_word then
    { score := 100, feedback := "Perfect! You spelled it correctly!" }
  else
    let score := similarityScore target_word user_text
    { score := score, feedback := get_spelling_feedback score user_text target_word }

/-- Result record of `calculate_pronunciation_score`. -/
structure PronunciationResult where
  score : ℤ
  target_phonemes : String
  recognized_phonemes : String
  feedback : String
deriving DecidableEq

/-- `ScoringService.calculate_pronunciation_score` (scoring_service.py lines
59–102).  The phoneme conversion `self.text_to_phonemes` wraps the external
`phonemizer` collaborator, so it is passed in as a function `p`. -/
def calculate_pronunciation_score (p : String → String)
    (recognized_text target_word : String) : PronunciationResult :=
  let target_phonemes := p target_word
  let recognized_phonemes := p recognized_text
  if target_phonemes = "" then
    { score := 0
      target_phonemes := target_phonemes
      recognized_phonemes := recognized_phonemes
      feedback := "Could not process target word" }
  else
    let score := similarityScore target_phonemes recognized_phonemes
    { score := score
      target_phonemes := target_phonemes
      recognized_phonemes := recognized_phonemes
      feedback := get_pronunciation_feedback score recognized_text target_word }

/-! ## ProgressionEngine (`app/database.py`)

`update_user_stats` reads the user's stats record, computes the new XP,
level, streak and session counters, stamps `last_practice_date`, and runs
the badge check.  The Firestore read/write plumbing around it is the
persistence collaborator and is out of scope; the state transition itself
is modelled here.  Dates are ordinal day numbers (`ℤ`), so Python's
`(today - last_date).days` is integer subtraction. -/

/-- The `stats` map of a user document (fields and initial values from
`create_user`, database.py lines 103–112). -/
structure UserStats where
  total_xp : ℤ
  level : ℤ
  streak : ℤ
  last_practice_date : Option ℤ
  pronunciation_sessions : ℤ
  spelling_sessions : ℤ
  best_pronunciation_score : ℤ
  best_spelling_score : ℤ
deriving DecidableEq

/-- The initial stats written by `create_user`. -/
def initialStats : UserStats :=
  { total_xp := 0, level := 1, streak := 0, last_practice_date := none
    pronunciation_sessions := 0, spelling_sessions := 0
    best_pronunciation_score := 0, best_spelling_score := 0 }

/-- A badge document (database.py lines 265–270). -/
structure Badge where
  id : String
  name : String
  description : String
  earned_at : ℤ
deriving DecidableEq

/-- One entry of the `badge_conditions` table: the condition is already
evaluated against the stats when the table is built, as in the source. -/
structure BadgeRule where
  id : String
  cond : Bool
  name : String
  description : String
deriving DecidableEq

/-- The `badge_conditions` table of `check_for_badges` (database.py lines
234–261), conditions evaluated against `stats`.  The emoji prefix of each
display name is omitted (it plays no role in any rule). -/
def badge_conditions (stats : UserStats) : List BadgeRule :=
  let total_sessions := stats.pronunciation_sessions + stats.spelling_sessions
  [ ⟨"first_session", total_sessions ≥ 1, "First Session", "Completed your first practice!"⟩,
    ⟨"getting_started", stats.total_xp ≥ 10, "Getting Started", "Earned 10 XP"⟩,
    ⟨"first_steps", stats.total_xp ≥ 100, "First Steps", "Earned 100 XP"⟩,
    ⟨"xp_500", stats.total_xp ≥ 500, "XP Hunter", "Earned 500 XP"⟩,
    ⟨"five_sessions", total_sessions ≥ 5, "Dedicated", "Completed 5 sessions"⟩,
    ⟨"ten_sessions", total_sessions ≥ 10, "On Fire", "Completed 10 sessions"⟩,
    ⟨"century", total_sessions ≥ 100, "Century", "Completed 100 sessions"⟩,
    ⟨"streak_3", stats.streak ≥ 3, "3 Day Streak", "3 day practice streak"⟩,
    ⟨"streak_week", stats.streak ≥ 7, "Week Warrior", "7 day streak"⟩,
    ⟨"streak_month", stats.streak ≥ 30, "Monthly Master", "30 day streak"⟩,
    ⟨"level_2", stats.level ≥ 2, "Level 2", "Reached level 2"⟩,
    ⟨"level_5", stats.level ≥ 5, "Rising Star", "Reached level 5"⟩,
    ⟨"level_10", stats.level ≥ 10, "Expert", "Reached level 10"⟩,
    ⟨"pronunciation_first", stats.pronunciation_sessions ≥ 1, "Voice Activated", "First pronunciation practice"⟩,
    ⟨"spelling_first", stats.spelling_sessions ≥ 1, "Wordsmith", "First spelling practice"⟩,
    ⟨"perfect_pronunciation", stats.best_pronunciation_score ≥ 100, "Perfect Pronunciation", "100% pronunciation score"⟩,
    ⟨"perfect_spelling", stats.best_spelling_score ≥ 100, "Spelling Bee", "100% spelling score"⟩ ]

/-- One loop iteration of `check_for_badges` (database.py lines 263–270):
append the badge if its condition holds and its id is not yet present. -/
def badgeStep (now : ℤ) (badges : List Badge) (r : BadgeRule) : List Badge :=
  if r.cond = true ∧ r.id ∉ badges.map Badge.id then
    badges ++ [⟨r.id, r.name, r.description, now⟩]
  else badges

/-- `check_for_badges(stats, current_badges)` (database.py lines 228–272).
`now` is the `datetime.now` stamp used for `earned_at`. -/
def check_for_badges (stats : UserStats) (current_badges : List Badge)
    (now : ℤ) : List Badge :=
  (badge_conditions stats).foldl (badgeStep now) current_badges

/-- The pure state transition of `update_user_stats` (database.py lines
128–202): given the stored stats, the XP earned and the mode, produce the
stored stats after the session, with `today = now.date()` as an ordinal day.
The returned badge list is `check_for_badges` applied to the updated stats,
exactly as in the source (the `stats` dict is mutated before the check). -/
def update_user_stats (stats : UserStats) (badges : List Badge)
    (xp_earned : ℤ) (mode : String) (today : ℤ) : UserStats × List Badge :=
  let new_total_xp := stats.total_xp + xp_earned
  let new_level := new_total_xp.fdiv 500 + 1
  let new_streak :=
    match stats.last_practice_date with
    | some last_date =>
      let days_diff := today - last_date
      if days_diff = 0 then stats.streak
      else if days_diff = 1 then stats.streak + 1
      else 1
    | none => 1
  let stats1 :=
    if mode = "pronunciation" then
      { stats with pronunciation_sessions := stats.pronunciation_sessions + 1 }
    else if mode = "spelling" then
      { stats with spelling_sessions := stats.spelling_sessions + 1 }
    else stats
  let stats2 :=
    { stats1 with
      total_xp := new_total_xp
      level := new_level
      streak := new_streak
      last_practice_date := some today }
  (stats2, check_for_badges stats2 badges today)

/-! ## `update_best_score` (database.py lines 205–225)

The stored `stats` is a string-keyed map and the updated key is the
interpolated `f"best_{mode}_score"`, so this operation is modelled over an
association list (insertion order preserved, first occurrence updated),
matching Python dict reads and writes. -/

/-- `d.get(k, default)` on a Python dict. -/
def dictGet : List (String × ℤ) → String → ℤ → ℤ
  | [], _, d0 => d0
  | p :: ps, k, d0 => if p.1 = k then p.2 else dictGet ps k d0

/-- `d[k] = v` on a Python dict: overwrite the existing key in place,
else append. -/
def dictSet : List (String × ℤ) → String → ℤ → List (String × ℤ)
  | [], k, v => [(k, v)]
  | p :: ps, k, v => if p.1 = k then (k, v) :: ps else p :: dictSet ps k v

/-- `update_best_score(firebase_uid, mode, score)`: read
`stats[f"best_{mode}_score"]` (default 0) and overwrite it only when the
new score is strictly greater. -/
def update_best_score (stats : List (String × ℤ)) (mode : String)
    (score : ℤ) : List (String × ℤ) :=
  let field := "best_" ++ mode ++ "_score"
  let current_best := dictGet stats field 0
  if score > current_best then dictSet stats field score else stats

/-! ## DailyWordSelector (`app/services/word_service.py`)

`get_daily_words` seeds Python's `random.Random` with `today.toordinal()`
and draws `sample(easy, 2)`, `sample(medium, 2)`, `choice(hard)`.  The
Mersenne-Twister generator is an external collaborator; it is modelled as
an arbitrary implementation `R : RandomGen ρ` threading its state `ρ`
explicitly (Python advances the generator in place). -/

/-- A corpus entry, with the fields `get_daily_words` reads. -/
structure Word where
  word : String
  definitions : List String
  difficulty : String
deriving DecidableEq

/-- A formatted daily word (word_service.py lines 163–169). -/
structure DailyWord where
  word : String
  meaning : String
  difficulty : String
deriving DecidableEq

/-- The word pools indexed by difficulty (`words_by_difficulty`). -/
structure Pools where
  easy : List Word
  medium : List Word
  hard : List Word
deriving DecidableEq

/-- An implementation of the generator operations `get_daily_words` uses:
`init` is `random.Random(seed)`, `sample` and `choice` advance the state. -/
structure RandomGen (ρ : Type) where
  init : ℤ → ρ
  sample : ρ → List Word → ℕ → List Word × ρ
  choice : ρ → List Word → Word × ρ

/-- The per-date cache `_daily_cache` of `WordService`. -/
structure DailyCache where
  date : Option ℤ
  words : List DailyWord
deriving DecidableEq

/-- Formatting of one selected word (word_service.py lines 163–169):
`definitions[0]` if the list is non-empty, else the empty meaning. -/
def formatDaily (w : Word) : DailyWord :=
  { word := w.word
    meaning := w.definitions.headD ""
    difficulty := w.difficulty }

/-- One two-element draw (word_service.py lines 138–152): `rng.sample(pool, 2)`
when the pool can fill the quota, else `pool[:2]` without touching the
generator. -/
def pick2 {ρ : Type} (R : RandomGen ρ) (g : ρ) (l : List Word) : List Word × ρ :=
  if l.length ≥ 2 then R.sample g l 2 else (l.take 2, g)

/-- The one-element hard draw (word_service.py lines 154–160):
`[rng.choice(pool)]` when the pool is non-empty, else nothing. -/
def pick1 {ρ : Type} (R : RandomGen ρ) (g : ρ) (l : List Word) : List Word :=
  if l ≠ [] then [(R.choice g l).1] else []

/-- The seeding-and-sampling part of `get_daily_words` (word_service.py
lines 132–169): seed with the date ordinal, then 2 easy + 2 medium + 1 hard,
each pool degrading to `take` when it cannot fill its quota. -/
def select_daily_words {ρ : Type} (R : RandomGen ρ) (today : ℤ)
    (pools : Pools) : List DailyWord :=
  let g0 := R.init today
  let easyPick := pick2 R g0 pools.easy
  let mediumPick := pick2 R easyPick.2 pools.medium
  let hardPick := pick1 R mediumPick.2 pools.hard
  ((easyPick.1 ++ mediumPick.1) ++ hardPick).map formatDaily

/-- `get_daily_words` (word_service.py lines 118–174) including the
per-date cache: return the cached list when it is for today and non-empty,
else recompute and replace the cache wholesale. -/
def get_daily_words {ρ : Type} (R : RandomGen ρ) (today : ℤ) (pools : Pools)
    (cache : DailyCache) : List DailyWord × DailyCache :=
  if cache.date = some today ∧ cache.words ≠ [] then (cache.words, cache)
  else
    let ws := select_daily_words R today pools
    (ws, { date := some today, words := ws })

/-! ## Properties of the unit-cost edit distance -/

/-- `levenshtein defaultCost [] ys = |ys|`. -/
lemma levenshtein_default_nil_left {α : Type} [DecidableEq α] (ys : List α) :
    levenshtein Levenshtein.defaultCost ([] : List α) ys = ys.length := by
  induction ys with
  | nil => simp [levenshtein_nil_nil]
  | cons y ys ih => simp [levenshtein_nil_cons, ih, Nat.add_comm]

/-- `levenshtein defaultCost xs [] = |xs|`. -/
lemma levenshtein_default_nil_right {α : Type} [DecidableEq α] (xs : List α) :
    levenshtein Levenshtein.defaultCost xs ([] : List α) = xs.length := by
  induction xs with
  | nil => simp [levenshtein_nil_nil]
  | cons x xs ih => simp [levenshtein_cons_nil, ih, Nat.add_comm]

/-- The unit-cost edit distance is at most the length of the longer list:
deleting the surplus and substituting the rest is always available. -/
lemma levenshtein_default_le_max {α : Type} [DecidableEq α] (xs ys : List α) :
    levenshtein Levenshtein.defaultCost xs ys ≤ max xs.length ys.length := by
  induction xs generalizing ys with
  | nil => simp [levenshtein_default_nil_left]
  | cons x xs ih =>
    cases ys with
    | nil =>
      have h := levenshtein_default_nil_right (x :: xs)
      simp only [List.length_cons, List.length_nil, Nat.max_zero] at *
      omega
    | cons y ys =>
      have h1 : levenshtein Levenshtein.defaultCost (x :: xs) (y :: ys) ≤
          (if x = y then 0 else 1) + levenshtein Levenshtein.defaultCost xs ys := by
        rw [levenshtein_cons_cons]
        exact le_trans (min_le_right _ _) (min_le_right _ _)
      have h2 : (if x = y then 0 else 1) + levenshtein Levenshtein.defaultCost xs ys ≤
          1 + max xs.length ys.length := by
        have := ih ys
        split <;> omega
      have h3 : 1 + max xs.length ys.length =
          max (x :: xs).length (y :: ys).length := by
        simp [List.length_cons, Nat.succ_max_succ, Nat.add_comm]
      omega

/-- The distance between two strings is at most the longer length. -/
lemma levDist_le_max (a b : String) : levDist a b ≤ max a.length b.length :=
  levenshtein_default_le_max a.data b.data

/-! ## The exact similarity formula

`similarityScore` truncates (`int(...)`); because the similarity ratio is
never negative, the truncation is a floor.  `clampFloorScore` states the
formula with the floor made explicit; `clampRoundScore` is the formula the
spec describes, with rounding instead — the two disagree. -/

/-- The similarity formula with truncation written as a floor. -/
def clampFloorScore (target attempt : String) : ℤ :=
  max 0 (min 100
    ⌊(1 - (levDist target attempt : ℚ) /
        (max (target.length : ℚ) (max (attempt.length : ℚ) 1))) * 100⌋)

/-- Modelled from the spec: the similarity formula as the spec words it,
`clamp(round(similarity * 100), 0, 100)`, rounding to the nearest integer. -/
def clampRoundScore (target attempt : String) : ℤ :=
  max 0 (min 100
    (round ((1 - (levDist target attempt : ℚ) /
        (max (target.length : ℚ) (max (attempt.length : ℚ) 1))) * 100)))

/-- The similarity ratio times 100 is never negative, so Python's `int(...)`
truncation agrees with the floor. -/
lemma similarityScore_eq_clampFloor (target attempt : String) :
    similarityScore target attempt = clampFloorScore target attempt := by
  have hd : (levDist target attempt : ℚ) ≤
      max (target.length : ℚ) (max (attempt.length : ℚ) 1) := by
    have h1 : (levDist target attempt : ℚ) ≤ max (target.length : ℚ) (attempt.length : ℚ) := by
      have := levDist_le_max target attempt
      push_cast [← Nat.cast_max]
      exact_mod_cast this
    refine le_trans h1 (max_le_max le_rfl ?_)
    exact le_max_left _ _
  have hm : (0 : ℚ) < max (target.length : ℚ) (max (attempt.length : ℚ) 1) := by
    have : (1 : ℚ) ≤ max (attempt.length : ℚ) 1 := le_max_right _ _
    have := le_trans this (le_max_right (target.length : ℚ) _)
    linarith
  have hq : (0 : ℚ) ≤
      (1 - (levDist target attempt : ℚ) /
        (max (target.length : ℚ) (max (attempt.length : ℚ) 1))) * 100 := by
    have hr : (levDist target attempt : ℚ) /
        (max (target.length : ℚ) (max (attempt.length : ℚ) 1)) ≤ 1 :=
      (div_le_one hm).mpr hd
    nlinarith
  simp only [similarityScore, clampFloorScore, ratTrunc]
  rw [if_pos hq]

/-! ## Helper lemmas on the badge fold -/

/-- Ids already present survive the badge fold. -/
lemma mem_ids_foldl_badgeStep (now : ℤ) (rs : List BadgeRule) (acc : List Badge)
    (i : String) (h : i ∈ acc.map Badge.id) :
    i ∈ (rs.foldl (badgeStep now) acc).map Badge.id := by
  induction rs generalizing acc with
  | nil => exact h
  | cons r rs ih =>
    apply ih
    unfold badgeStep
    split
    · simpa using Or.inl h
    · exact h

/-- After the fold, every rule with a true condition has its id present. -/
lemma cond_mem_ids_foldl_badgeStep (now : ℤ) (rs : List BadgeRule) :
    ∀ (acc : List Badge) (r : BadgeRule), r ∈ rs → r.cond = true →
      r.id ∈ (rs.foldl (badgeStep now) acc).map Badge.id := by
  induction rs with
  | nil =>
    intro acc r hr
    cases hr
  | cons r0 rs ih =>
    intro acc r hr hc
    rw [List.foldl_cons]
    rcases List.mem_cons.mp hr with h | h
    · subst h
      apply mem_ids_foldl_badgeStep
      unfold badgeStep
      split
      · simp
      · rename_i hneg
        rcases not_and_or.mp hneg with h1 | h1
        · exact absurd hc h1
        · simpa using not_not.mp h1
    · exact ih _ r h hc

/-- If every rule with a true condition already has its id in the
accumulator, the fold appends nothing. -/
lemma foldl_badgeStep_fixed (now : ℤ) (rs : List BadgeRule) (acc : List Badge)
    (h : ∀ r ∈ rs, r.cond = true → r.id ∈ acc.map Badge.id) :
    rs.foldl (badgeStep now) acc = acc := by
  induction rs with
  | nil => rfl
  | cons r rs ih =>
    have hstep : badgeStep now acc r = acc := by
      unfold badgeStep
      rw [if_neg]
      rintro ⟨hc, hnm⟩
      exact hnm (h r (List.mem_cons_self r rs) hc)
    rw [List.foldl_cons, hstep]
    exact ih (fun r' hr' => h r' (List.mem_cons_of_mem r hr'))

/-! ## Helper lemmas on the dict model -/

/-- Reading after writing: the written key returns the new value, any other
key is untouched. -/
lemma dictGet_dictSet (d : List (String × ℤ)) (k k2 : String) (v d0 : ℤ) :
    dictGet (dictSet d k v) k2 d0 = if k2 = k then v else dictGet d k2 d0 := by
  induction d with
  | nil =>
    by_cases h : k2 = k
    · simp [dictSet, dictGet, h]
    · simp [dictSet, dictGet, h, Ne.symm h]
  | cons p ps ih =>
    by_cases hp : p.1 = k
    · by_cases h2 : k2 = k
      · simp [dictSet, dictGet, hp, h2]
      · have hp2 : p.1 ≠ k2 := by
          rw [hp]
          exact fun hc => h2 hc.symm
        simp [dictSet, dictGet, hp, h2, Ne.symm h2, hp2]
    · by_cases h2 : p.1 = k2
      · have hk2 : k2 ≠ k := by
          rw [← h2]
          exact hp
        simp [dictSet, dictGet, hp, h2, hk2]
      · simp [dictSet, dictGet, hp, h2, ih]

/-! ## Helper lemmas on the pool draws -/

/-- The documented behaviour of `random.Random.sample(l, k)` for `k ≤ len(l)`:
it returns exactly `k` elements, all drawn from `l`. -/
def SampleOK {ρ : Type} (R : RandomGen ρ) : Prop :=
  ∀ (g : ρ) (l : List Word) (k : ℕ), k ≤ l.length →
    ((R.sample g l k).1.length = k ∧ ∀ w ∈ (R.sample g l k).1, w ∈ l)

/-- The documented behaviour of `random.Random.choice(l)` for non-empty `l`:
it returns an element of `l`. -/
def ChoiceOK {ρ : Type} (R : RandomGen ρ) : Prop :=
  ∀ (g : ρ) (l : List Word), l ≠ [] → (R.choice g l).1 ∈ l

lemma pick2_length {ρ : Type} {R : RandomGen ρ} (hs : SampleOK R) (g : ρ)
    (l : List Word) : (pick2 R g l).1.length = min 2 l.length := by
  unfold pick2
  split
  · rename_i h
    rw [(hs g l 2 h).1, Nat.min_eq_left h]
  · rw [List.length_take]

lemma pick2_mem {ρ : Type} {R : RandomGen ρ} (hs : SampleOK R) (g : ρ)
    (l : List Word) : ∀ w ∈ (pick2 R g l).1, w ∈ l := by
  unfold pick2
  split
  · rename_i h
    exact (hs g l 2 h).2
  · intro w hw
    exact List.take_subset 2 l hw

lemma pick1_length {ρ : Type} (R : RandomGen ρ) (g : ρ) (l : List Word) :
    (pick1 R g l).length = min 1 l.length := by
  unfold pick1
  split
  · rename_i h
    have : 1 ≤ l.length := List.length_pos.mpr h
    simp [Nat.min_eq_left this]
  · rename_i h
    have : l = [] := not_not.mp h
    simp [this]

lemma pick1_mem {ρ : Type} {R : RandomGen ρ} (hc : ChoiceOK R) (g : ρ)
    (l : List Word) : ∀ w ∈ pick1 R g l, w ∈ l := by
  unfold pick1
  split
  · rename_i h
    intro w hw
    rcases List.mem_singleton.mp hw with rfl
    exact hc g l h
  · intro w hw
    cases hw

/-! ## A concrete generator and pools, for instantiating the theorems -/

/-- A trivial deterministic generator: `sample` takes a prefix, `choice`
takes the head.  It satisfies the `random.Random` contracts. -/
def trivGen : RandomGen Unit where
  init _ := ()
  sample g l k := (l.take k, g)
  choice g l := (l.headD ⟨"", [], ""⟩, g)

lemma trivGen_sampleOK : SampleOK trivGen := by
  intro g l k hk
  constructor
  · simp [trivGen, Nat.min_eq_left hk]
  · intro w hw
    exact List.take_subset k l hw

lemma trivGen_choiceOK : ChoiceOK trivGen := by
  intro g l h
  cases l with
  | nil => exact absurd rfl h
  | cons x xs => simp [trivGen]

/-- The first pools of `_create_sample_words` (word_service.py lines 61–80),
used as concrete instantiation data. -/
def samplePools : Pools :=
  { easy := [⟨"cat", ["a small domesticated carnivorous mammal"], "Easy"⟩,
             ⟨"dog", ["a domesticated carnivorous mammal"], "Easy"⟩,
             ⟨"happy", ["feeling or showing pleasure"], "Easy"⟩]
    medium := [⟨"beautiful", ["pleasing the senses or mind aesthetically"], "Medium"⟩,
               ⟨"comprehend", ["grasp mentally; understand"], "Medium"⟩]
    hard := [⟨"eloquent", ["fluent or persuasive in speaking or writing"], "Hard"⟩,
             ⟨"ephemeral", ["lasting for a very short time"], "Hard"⟩] }

/-! ## Claims -/

/-- C1, counterexample: `update_user_stats` does not fail on the
unrecognized mode `"listening"` — it produces an updated stats record with
XP added and the streak changed, contradicting the claim that no updated
record is produced. -/
theorem C1_counterexample :
    (update_user_stats initialStats [] 50 "listening" 739000).1.total_xp = 50
    ∧ initialStats.total_xp = 0
    ∧ (update_user_stats initialStats [] 50 "listening" 739000).1.streak = 1
    ∧ initialStats.streak = 0 := by
  refine ⟨?_, rfl, ?_, rfl⟩ <;> simp [update_user_stats, initialStats]

/-- C1, amended: for a mode outside the two recognized values,
`update_user_stats` does not reject the session.  It still adds the XP,
recomputes the level, applies the streak rule and stamps
`last_practice_date`; the only difference from a recognized mode is that
neither session counter is incremented.  (Mode validation lives in the
request schema `UpdateStatsRequest`, not in this function.) -/
theorem C1_unrecognized_mode_accepted (stats : UserStats) (badges : List Badge)
    (xp_earned : ℤ) (mode : String) (today : ℤ)
    (h1 : mode ≠ "pronunciation") (h2 : mode ≠ "spelling") :
    (update_user_stats stats badges xp_earned mode today).1.pronunciation_sessions
        = stats.pronunciation_sessions
    ∧ (update_user_stats stats badges xp_earned mode today).1.spelling_sessions
        = stats.spelling_sessions
    ∧ (update_user_stats stats badges xp_earned mode today).1.total_xp
        = stats.total_xp + xp_earned
    ∧ (update_user_stats stats badges xp_earned mode today).1.level
        = (stats.total_xp + xp_earned).fdiv 500 + 1
    ∧ (update_user_stats stats badges xp_earned mode today).1.last_practice_date
        = some today := by
  refine ⟨?_, ?_, ?_, ?_, ?_⟩ <;> simp [update_user_stats, h1, h2]

/-- C1, witness for the amended theorem at a concrete unrecognized mode. -/
theorem C1_witness :
    (update_user_stats initialStats [] 50 "grammar" 739000).1.pronunciation_sessions
        = initialStats.pronunciation_sessions
    ∧ (update_user_stats initialStats [] 50 "grammar" 739000).1.spelling_sessions
        = initialStats.spelling_sessions
    ∧ (update_user_stats initialStats [] 50 "grammar" 739000).1.total_xp
        = initialStats.total_xp + 50
    ∧ (update_user_stats initialStats [] 50 "grammar" 739000).1.level
        = (initialStats.total_xp + 50).fdiv 500 + 1
    ∧ (update_user_stats initialStats [] 50 "grammar" 739000).1.last_practice_date
        = some 739000 :=
  C1_unrecognized_mode_accepted initialStats [] 50 "grammar" 739000
    (by decide) (by decide)

/-- C3: the streak transition of `update_user_stats`, for a non-negative
day difference: no prior practice date gives streak 1; a difference of 0
days leaves the streak unchanged; a difference of exactly 1 day increments
it; a difference greater than 1 day resets it to 1. -/
theorem C3_streak_rules (stats : UserStats) (badges : List Badge)
    (xp_earned : ℤ) (mode : String) (today : ℤ) :
    (stats.last_practice_date = none →
      (update_user_stats stats badges xp_earned mode today).1.streak = 1)
    ∧ ∀ last, stats.last_practice_date = some last → 0 ≤ today - last →
      ((today - last = 0 →
          (update_user_stats stats badges xp_earned mode today).1.streak
            = stats.streak)
       ∧ (today - last = 1 →
          (update_user_stats stats badges xp_earned mode today).1.streak
            = stats.streak + 1)
       ∧ (1 < today - last →
          (update_user_stats stats badges xp_earned mode today).1.streak = 1)) := by
  constructor
  · intro h
    simp [update_user_stats, h]
  · intro last h _
    refine ⟨?_, ?_, ?_⟩
    · intro hd
      simp [update_user_stats, h, hd]
    · intro hd
      simp [update_user_stats, h, hd]
    · intro hd
      have h0 : ¬(today - last = 0) := by omega
      have h1 : ¬(today - last = 1) := by omega
      simp [update_user_stats, h, h0, h1]

/-- C3, witness: streak 5 with last practice yesterday becomes 6. -/
theorem C3_witness :
    (update_user_stats
      { initialStats with streak := 5, last_practice_date := some 739000 }
      [] 10 "spelling" 739001).1.streak = 5 + 1 :=
  ((C3_streak_rules
      { initialStats with streak := 5, last_practice_date := some 739000 }
      [] 10 "spelling" 739001).2 739000 rfl (by norm_num)).2.1 (by norm_num)

/-- C9: when `last_practice_date` is strictly later than `now` (negative
day difference, the clock-skew case), `update_user_stats` resets the
streak to 1, because any day difference other than 0 or 1 takes the
streak-broken branch. -/
theorem C9_clock_skew_resets_streak (stats : UserStats) (badges : List Badge)
    (xp_earned : ℤ) (mode : String) (today last : ℤ)
    (h : stats.last_practice_date = some last) (hneg : today - last < 0) :
    (update_user_stats stats badges xp_earned mode today).1.streak = 1 := by
  have h0 : ¬(today - last = 0) := by omega
  have h1 : ¬(today - last = 1) := by omega
  simp [update_user_stats, h, h0, h1]

/-- C9, witness: last practice on day 739005, now day 739003. -/
theorem C9_witness :
    (update_user_stats
      { initialStats with streak := 4, last_practice_date := some 739005 }
      [] 10 "pronunciation" 739003).1.streak = 1 :=
  C9_clock_skew_resets_streak
    { initialStats with streak := 4, last_practice_date := some 739005 }
    [] 10 "pronunciation" 739003 739005 rfl (by norm_num)

/-- C8: if the target word's phoneme conversion is empty,
`calculate_pronunciation_score` returns score 0 with the explicit feedback
`"Could not process target word"`, without computing a similarity ratio. -/
theorem C8_empty_target_phonemes (p : String → String)
    (recognized_text target_word : String) (h : p target_word = "") :
    calculate_pronunciation_score p recognized_text target_word =
      { score := 0
        target_phonemes := ""
        recognized_phonemes := p recognized_text
        feedback := "Could not process target word" } := by
  simp [calculate_pronunciation_score, h]

/-- C8, witness: a phonemizer that fails on everything. -/
theorem C8_witness :
    calculate_pronunciation_score (fun _ => "") "hello" "cat" =
      { score := 0
        target_phonemes := ""
        recognized_phonemes := ""
        feedback := "Could not process target word" } :=
  C8_empty_target_phonemes (fun _ => "") "hello" "cat" rfl

/-- C10: `update_best_score` changes at most the single stats field
`best_<mode>_score`: every other key of the stats map reads the same after
the call, and when the new score is not strictly greater than the stored
best the stats map is returned entirely unchanged. -/
theorem C10_best_score_frame (stats : List (String × ℤ)) (mode : String)
    (score : ℤ) :
    (∀ k d0, k ≠ "best_" ++ mode ++ "_score" →
      dictGet (update_best_score stats mode score) k d0 = dictGet stats k d0)
    ∧ (score ≤ dictGet stats ("best_" ++ mode ++ "_score") 0 →
      update_best_score stats mode score = stats) := by
  constructor
  · intro k d0 hk
    simp only [update_best_score]
    split
    · rw [dictGet_dictSet, if_neg hk]
    · rfl
  · intro hle
    simp only [update_best_score]
    rw [if_neg (not_lt.mpr hle)]

/-- C10, witness: raising the spelling best leaves `total_xp`, the streak
and the pronunciation best unchanged. -/
theorem C10_witness :
    dictGet (update_best_score
        [("total_xp", 70), ("streak", 3), ("best_pronunciation_score", 55),
         ("best_spelling_score", 40)] "spelling" 90) "total_xp" 0
      = dictGet
        [("total_xp", 70), ("streak", 3), ("best_pronunciation_score", 55),
         ("best_spelling_score", 40)] "total_xp" 0
    ∧ dictGet (update_best_score
        [("total_xp", 70), ("streak", 3), ("best_pronunciation_score", 55),
         ("best_spelling_score", 40)] "spelling" 90) "best_pronunciation_score" 0
      = dictGet
        [("total_xp", 70), ("streak", 3), ("best_pronunciation_score", 55),
         ("best_spelling_score", 40)] "best_pronunciation_score" 0 :=
  ⟨(C10_best_score_frame
      [("total_xp", 70), ("streak", 3), ("best_pronunciation_score", 55),
       ("best_spelling_score", 40)] "spelling" 90).1 "total_xp" 0 (by decide),
   (C10_best_score_frame
      [("total_xp", 70), ("streak", 3), ("best_pronunciation_score", 55),
       ("best_spelling_score", 40)] "spelling" 90).1 "best_pronunciation_score" 0
     (by decide)⟩

/-- C2, counterexample: on the attempt `"ab"` against target `"abc"` the
code produces 66 (truncation of 66.67), while the claimed formula with
rounding gives 67, so the similarity ratio times 100 is truncated, not
rounded. -/
theorem C2_counterexample :
    (calculate_spelling_score "ab" "abc").score = 66
    ∧ clampRoundScore "abc" "ab" = 67 := by
  have h1 : levDist "abc" "ab" = 1 := by decide
  have h2 : ("abc" : String).length = 3 := rfl
  have h3 : ("ab" : String).length = 2 := rfl
  constructor
  · have e1 : normalize "ab" = "ab" := by decide
    have e2 : normalize "abc" = "abc" := by decide
    simp only [calculate_spelling_score, e1, e2,
      if_neg (by decide : ¬("ab" : String) = "abc"),
      similarityScore, ratTrunc, h1, h2, h3]
    norm_num
  · simp only [clampRoundScore, h1, h2, h3]
    rw [round_eq]
    norm_num

/-- C2, amended: for strings not exactly equal after normalization (and
with a non-empty target phoneme string in pronunciation mode), the score is
`clamp(floor(similarity * 100), 0, 100)` — the ratio times 100 is truncated
toward zero, which coincides with the floor because the ratio is never
negative; it is not rounded to nearest. -/
theorem C2_score_truncates (u t : String) (p : String → String) (r tw : String)
    (hspell : normalize u ≠ normalize t) (hpron : p tw ≠ "") :
    (calculate_spelling_score u t).score
      = clampFloorScore (normalize t) (normalize u)
    ∧ (calculate_pronunciation_score p r tw).score
      = clampFloorScore (p tw) (p r) := by
  constructor
  · simp only [calculate_spelling_score, if_neg hspell]
    exact similarityScore_eq_clampFloor _ _
  · simp only [calculate_pronunciation_score, if_neg hpron]
    exact similarityScore_eq_clampFloor _ _

/-- C2, witness for the amended theorem at concrete inputs. -/
theorem C2_witness :
    (calculate_spelling_score "ab" "abc").score = clampFloorScore "abc" "ab"
    ∧ (calculate_pronunciation_score (fun s => s) "ab" "abc").score
      = clampFloorScore "abc" "ab" := by
  have h := C2_score_truncates "ab" "abc" (fun s => s) "ab" "abc"
    (by decide) (by decide)
  have e1 : normalize "ab" = "ab" := by decide
  have e2 : normalize "abc" = "abc" := by decide
  rw [e1, e2] at h
  exact h

/-- C4: re-running `check_for_badges` on its own output (same stats) is the
identity — the delta beyond the first call's badge list is empty, since
every qualifying badge id is already present after the first call. -/
theorem C4_badge_check_idempotent (stats : UserStats) (badges : List Badge)
    (now1 now2 : ℤ) :
    check_for_badges stats (check_for_badges stats badges now1) now2
      = check_for_badges stats badges now1 := by
  unfold check_for_badges
  apply foldl_badgeStep_fixed
  intro r hr hc
  exact cond_mem_ids_foldl_badgeStep now1 (badge_conditions stats) badges r hr hc

/-- C5: daily-word selection is a pure function of the date and the pools.
Two consecutive invocations for the same date return the identical list,
and from any cache that does not already hold a non-empty entry for today
(in particular after a process restart, when the cache is empty) the result
is exactly the seeded selection `select_daily_words`, whose generator is
freshly seeded from the date's ordinal on every recomputation. -/
theorem C5_daily_selection_deterministic {ρ : Type} (R : RandomGen ρ)
    (today : ℤ) (pools : Pools) (cache : DailyCache) :
    (get_daily_words R today pools
        (get_daily_words R today pools cache).2).1
      = (get_daily_words R today pools cache).1
    ∧ ((cache.date ≠ some today ∨ cache.words = []) →
      (get_daily_words R today pools cache).1
        = select_daily_words R today pools) := by
  constructor
  · by_cases h : cache.date = some today ∧ cache.words ≠ []
    · simp [get_daily_words, h]
    · by_cases hw : select_daily_words R today pools = []
      · simp [get_daily_words, h, hw]
      · simp [get_daily_words, h, hw]
  · intro h
    have hcond : ¬(cache.date = some today ∧ cache.words ≠ []) := by
      rcases h with h | h
      · exact fun hcon => h hcon.1
      · exact fun hcon => hcon.2 h
    simp [get_daily_words, hcond]

/-- C5, witness: from the initial empty cache, the first call returns the
seeded selection. -/
theorem C5_witness :
    (get_daily_words trivGen 739000 samplePools
        { date := none, words := [] }).1
      = select_daily_words trivGen 739000 samplePools :=
  (C5_daily_selection_deterministic trivGen 739000 samplePools
    { date := none, words := [] }).2 (Or.inl (by decide))

/-- C7: under the documented `random.sample`/`random.choice` contracts, the
selection is (easy draw) ++ (medium draw) ++ (hard draw) in that order, the
easy and medium draws each contribute `min 2 |pool|` words of their pool
and the hard draw `min 1 |pool|` — so full pools give 2+2+1, and a pool
below quota contributes all it has instead of failing. -/
theorem C7_quota_and_degradation {ρ : Type} (R : RandomGen ρ)
    (hs : SampleOK R) (hc : ChoiceOK R) (today : ℤ) (pools : Pools) :
    ∃ e m h : List Word,
      select_daily_words R today pools
        = e.map formatDaily ++ m.map formatDaily ++ h.map formatDaily
      ∧ e.length = min 2 pools.easy.length
      ∧ m.length = min 2 pools.medium.length
      ∧ h.length = min 1 pools.hard.length
      ∧ (∀ w ∈ e, w ∈ pools.easy)
      ∧ (∀ w ∈ m, w ∈ pools.medium)
      ∧ (∀ w ∈ h, w ∈ pools.hard) := by
  refine ⟨(pick2 R (R.init today) pools.easy).1,
    (pick2 R (pick2 R (R.init today) pools.easy).2 pools.medium).1,
    pick1 R (pick2 R (pick2 R (R.init today) pools.easy).2 pools.medium).2
      pools.hard,
    ?_, ?_, ?_, ?_, ?_, ?_, ?_⟩
  · simp [select_daily_words, List.map_append]
  · exact pick2_length hs _ _
  · exact pick2_length hs _ _
  · exact pick1_length R _ _
  · exact pick2_mem hs _ _
  · exact pick2_mem hs _ _
  · exact pick1_mem hc _ _

/-- A single-easy-word pool set, for the degradation instance of C7. -/
def tinyPools : Pools :=
  { easy := [⟨"cat", ["a small domesticated carnivorous mammal"], "Easy"⟩]
    medium := []
    hard := [] }

/-- C7, witness: the full sample pools (3 easy, 2 medium, 2 hard) and the
degraded single-easy-word pools, both through the concrete generator. -/
theorem C7_witness :
    (∃ e m h : List Word,
      select_daily_words trivGen 739000 samplePools
        = e.map formatDaily ++ m.map formatDaily ++ h.map formatDaily
      ∧ e.length = min 2 samplePools.easy.length
      ∧ m.length = min 2 samplePools.medium.length
      ∧ h.length = min 1 samplePools.hard.length
      ∧ (∀ w ∈ e, w ∈ samplePools.easy)
      ∧ (∀ w ∈ m, w ∈ samplePools.medium)
      ∧ (∀ w ∈ h, w ∈ samplePools.hard))
    ∧ (∃ e m h : List Word,
      select_daily_words trivGen 739000 tinyPools
        = e.map formatDaily ++ m.map formatDaily ++ h.map formatDaily
      ∧ e.length = min 2 tinyPools.easy.length
      ∧ m.length = min 2 tinyPools.medium.length
      ∧ h.length = min 1 tinyPools.hard.length
      ∧ (∀ w ∈ e, w ∈ tinyPools.easy)
      ∧ (∀ w ∈ m, w ∈ tinyPools.medium)
      ∧ (∀ w ∈ h, w ∈ tinyPools.hard)) :=
  ⟨C7_quota_and_degradation trivGen trivGen_sampleOK trivGen_choiceOK
      739000 samplePools,
   C7_quota_and_degradation trivGen trivGen_sampleOK trivGen_choiceOK
      739000 tinyPools⟩

/-- C6, counterexample: the spelling feedback changes between scores 49 and
50, yet 50 is not one of the claimed thresholds 90, 75, 60, 40, 20 — under
the claim both scores lie strictly between the consecutive claimed
thresholds 40 and 60 and would have to receive the same message. -/
theorem C6_counterexample :
    get_spelling_feedback 50 "ab" "abc" ≠ get_spelling_feedback 49 "ab" "abc"
    ∧ (50 : ℤ) ∉ ([90, 75, 60, 40, 20] : List ℤ) := by
  constructor
  · decide
  · decide

/-- C6, amended: in spelling mode, non-exact-match feedback is selected
from four fixed score bands with thresholds ≥90, ≥75, ≥50, else (not taken
from the six-band list), evaluated in descending order, each score mapping
to exactly one fixed message template. -/
theorem C6_spelling_bands (score : ℤ) (u t : String) :
    (90 ≤ score →
      get_spelling_feedback score u t = "Almost perfect! Just a small typo.")
    ∧ (75 ≤ score → score < 90 →
      get_spelling_feedback score u t = "Good try! A few letters are off.")
    ∧ (50 ≤ score → score < 75 →
      get_spelling_feedback score u t = "Keep going! You got some letters right.")
    ∧ (score < 50 →
      get_spelling_feedback score u t
        = "The correct spelling is \x27" ++ t ++ "\x27. Try again!") := by
  refine ⟨?_, ?_, ?_, ?_⟩
  · intro h
    simp only [get_spelling_feedback]
    rw [if_pos (by omega : score ≥ 90)]
  · intro h1 h2
    simp only [get_spelling_feedback]
    rw [if_neg (by omega : ¬score ≥ 90), if_pos (by omega : score ≥ 75)]
  · intro h1 h2
    simp only [get_spelling_feedback]
    rw [if_neg (by omega : ¬score ≥ 90), if_neg (by omega : ¬score ≥ 75),
      if_pos (by omega : score ≥ 50)]
  · intro h
    simp only [get_spelling_feedback]
    rw [if_neg (by omega : ¬score ≥ 90), if_neg (by omega : ¬score ≥ 75),
      if_neg (by omega : ¬score ≥ 50)]

/-- C6, witness: one score from each band. -/
theorem C6_witness :
    get_spelling_feedback 95 "ab" "abc" = "Almost perfect! Just a small typo."
    ∧ get_spelling_feedback 80 "ab" "abc" = "Good try! A few letters are off."
    ∧ get_spelling_feedback 55 "ab" "abc"
      = "Keep going! You got some letters right."
    ∧ get_spelling_feedback 10 "ab" "abc"
      = "The correct spelling is \x27abc\x27. Try again!" := by
  refine ⟨(C6_spelling_bands 95 "ab" "abc").1 (by norm_num),
    (C6_spelling_bands 80 "ab" "abc").2.1 (by norm_num) (by norm_num),
    (C6_spelling_bands 55 "ab" "abc").2.2.1 (by norm_num) (by norm_num), ?_⟩
  rw [(C6_spelling_bands 10 "ab" "abc").2.2.2 (by norm_num)]
  decide

end Fluento
